import Mathlib

/-!
Verification development for the Proposal_Generator repository.

The Python modules `legal_docs.py`, `company_profiles.py`, `project_lists.py`
and `contacts.py` are shallowly embedded below.  Python strings become Lean
`String`s, Python dicts used as records become structures, the contact dicts
(whose keys may be absent) become association lists, fallible Python code
returns `Except PyError`, and the external text-generation providers are
modelled as an explicit parameter `provider : String → Except String String`
(prompt in, text out, or an exception message).
-/

/-- Errors a modelled Python function can raise. -/
inductive PyError where
  | valueError (msg : String)
  | indexError
  | keyError (key : String)
  | runtimeError (msg : String)
deriving DecidableEq

/-- Whitespace test used by Python `str.strip()` (space, tab, newline,
carriage return, vertical tab, form feed). -/
def isPySpace (c : Char) : Bool :=
  c == ' ' || c == '\t' || c == '\n' || c == '\r' || c == '\x0b' || c == '\x0c'

/-- Python `str.strip()` on a list of characters: drop whitespace from both
ends. -/
def pyStripD (l : List Char) : List Char :=
  ((l.dropWhile isPySpace).reverse.dropWhile isPySpace).reverse

/-- Python `str.strip()`. -/
def pyStripS (s : String) : String :=
  String.mk (pyStripD s.data)

/-- Python `str.lower()`, restricted to ASCII letters (the only characters the
repository ever lowercases). -/
def pyLowerChar (c : Char) : Char :=
  if 'A' ≤ c && c ≤ 'Z' then Char.ofNat (c.toNat + 32) else c

/-- Python `str.lower()` (ASCII). -/
def pyLower (s : String) : String :=
  String.mk (s.data.map pyLowerChar)

/-- Python `sep.join(parts)`. -/
def pyJoin (sep : String) : List String → String
  | [] => ""
  | x :: xs => xs.foldl (fun acc y => acc ++ sep ++ y) x

/-- Substring relation on strings (used to state containment of template text
in built prompts). -/
def strInfix (sub s : String) : Prop :=
  sub.data <:+: s.data

instance (sub s : String) : Decidable (strInfix sub s) :=
  List.decidableInfix sub.data s.data

/-! JSON values and a model of Python `json.loads`.

Modelled from the Python standard library `json.loads` used by
`project_lists.py` (the repository itself contains no parser): strings with
the common escapes, integer numbers, booleans, `null`, arrays and objects.
Fractional or exponent number syntax and `\u` escapes are not produced by the
pipeline's contract and are rejected by this model. -/

/-- JSON values. -/
inductive Json where
  | null
  | bool (b : Bool)
  | num (n : Int)
  | str (s : String)
  | arr (elems : List Json)
  | obj (members : List (String × Json))

/-- Whitespace skipped between JSON tokens. -/
def jsonSkipWs (l : List Char) : List Char :=
  l.dropWhile fun c => c == ' ' || c == '\t' || c == '\n' || c == '\r'

/-- Translation of a JSON string escape character. -/
def jsonEscChar (e : Char) : Option Char :=
  if e == '"' then some '"'
  else if e == '\\' then some '\\'
  else if e == '/' then some '/'
  else if e == 'n' then some '\n'
  else if e == 't' then some '\t'
  else if e == 'r' then some '\r'
  else if e == 'b' then some '\x08'
  else if e == 'f' then some '\x0c'
  else none

/-- Parse the body of a JSON string after the opening quote; return the
decoded characters and the input after the closing quote. -/
def jsonStringBody : Nat → List Char → Option (List Char × List Char)
  | 0, _ => none
  | _ + 1, [] => none
  | fuel + 1, c :: cs =>
    if c == '"' then some ([], cs)
    else if c == '\\' then
      match cs with
      | [] => none
      | e :: cs2 =>
        (jsonEscChar e).bind fun d =>
          (jsonStringBody fuel cs2).map fun r => (d :: r.1, r.2)
    else
      (jsonStringBody fuel cs).map fun r => (c :: r.1, r.2)

/-- Parse a nonempty run of decimal digits. -/
def jsonDigits (l : List Char) : Option (Nat × List Char) :=
  let ds := l.takeWhile Char.isDigit
  if ds.isEmpty then none
  else some (ds.foldl (fun acc c => acc * 10 + (c.toNat - 48)) 0, l.dropWhile Char.isDigit)

/-- Parse an integer JSON number. -/
def jsonNumber (l : List Char) : Option (Int × List Char) :=
  match l with
  | '-' :: rest => (jsonDigits rest).map fun r => (-(r.1 : Int), r.2)
  | _ => (jsonDigits l).map fun r => ((r.1 : Int), r.2)

mutual

/-- Parse one JSON value. -/
def jsonValue : Nat → List Char → Option (Json × List Char)
  | 0, _ => none
  | fuel + 1, l =>
    match jsonSkipWs l with
    | [] => none
    | c :: cs =>
      if c == '"' then
        (jsonStringBody fuel cs).map fun r => (Json.str (String.mk r.1), r.2)
      else if c == '[' then
        match jsonSkipWs cs with
        | ']' :: rest => some (Json.arr [], rest)
        | l2 => (jsonElems fuel l2).map fun r => (Json.arr r.1, r.2)
      else if c == '\x7b' then
        match jsonSkipWs cs with
        | '\x7d' :: rest => some (Json.obj [], rest)
        | l2 => (jsonMembers fuel l2).map fun r => (Json.obj r.1, r.2)
      else if c == 't' then
        match cs with
        | 'r' :: 'u' :: 'e' :: rest => some (Json.bool true, rest)
        | _ => none
      else if c == 'f' then
        match cs with
        | 'a' :: 'l' :: 's' :: 'e' :: rest => some (Json.bool false, rest)
        | _ => none
      else if c == 'n' then
        match cs with
        | 'u' :: 'l' :: 'l' :: rest => some (Json.null, rest)
        | _ => none
      else if c == '-' || c.isDigit then
        (jsonNumber (c :: cs)).map fun r => (Json.num r.1, r.2)
      else none

/-- Parse the elements of a nonempty JSON array up to the closing bracket. -/
def jsonElems : Nat → List Char → Option (List Json × List Char)
  | 0, _ => none
  | fuel + 1, l =>
    (jsonValue fuel l).bind fun r =>
      match jsonSkipWs r.2 with
      | ',' :: rest2 => (jsonElems fuel rest2).map fun r2 => (r.1 :: r2.1, r2.2)
      | ']' :: rest2 => some ([r.1], rest2)
      | _ => none

/-- Parse the members of a nonempty JSON object up to the closing brace. -/
def jsonMembers : Nat → List Char → Option (List (String × Json) × List Char)
  | 0, _ => none
  | fuel + 1, l =>
    match jsonSkipWs l with
    | '"' :: cs =>
      (jsonStringBody fuel cs).bind fun rk =>
        match jsonSkipWs rk.2 with
        | ':' :: rest2 =>
          (jsonValue fuel rest2).bind fun rv =>
            match jsonSkipWs rv.2 with
            | ',' :: rest4 =>
              (jsonMembers fuel rest4).map fun r2 => ((String.mk rk.1, rv.1) :: r2.1, r2.2)
            | '\x7d' :: rest4 => some ([(String.mk rk.1, rv.1)], rest4)
            | _ => none
        | _ => none
    | _ => none

end

/-- Model of Python `json.loads`: parse one JSON document, allowing
surrounding whitespace and rejecting trailing content. -/
def json_loads (s : String) : Option Json :=
  match jsonValue (2 * s.data.length + 4) s.data with
  | some (v, rest) => if (jsonSkipWs rest).isEmpty then some v else none
  | none => none

/-- Length of the evaluations array of a parsed evaluation result, when the
value has that shape. -/
def evaluationsLength (v : Json) : Option Nat :=
  match v with
  | Json.obj members =>
    match members.lookup "evaluations" with
    | some (Json.arr xs) => some xs.length
    | _ => none
  | _ => none

/-- Scores of the evaluations array of a parsed evaluation result, when every
entry carries a numeric score. -/
def evaluationScores (v : Json) : Option (List Int) :=
  match v with
  | Json.obj members =>
    match members.lookup "evaluations" with
    | some (Json.arr xs) =>
      xs.mapM fun x =>
        match x with
        | Json.obj fields =>
          match fields.lookup "score" with
          | some (Json.num n) => some n
          | _ => none
        | _ => none
    | _ => none
  | _ => none

/-- Length of the additional recommendations array of a parsed evaluation
result, when the value has that shape. -/
def recommendationsLength (v : Json) : Option Nat :=
  match v with
  | Json.obj members =>
    match members.lookup "additional_recommendations" with
    | some (Json.arr xs) => some xs.length
    | _ => none
  | _ => none

/-! Embedding of `legal_docs.py`. -/

namespace LegalDocs

/-- Entry of the `parties` list: a dict with keys `name` and `role`. -/
structure Party where
  name : String
  role : String

/-- Per-language instruction templates for the two legal document kinds. -/
structure LegalTemplates where
  power_of_attorney : String
  letter_of_association : String

/-- English legal templates (verbatim from the `templates` dict literal). -/
def englishLegalTemplates : LegalTemplates where
  power_of_attorney := "\nYou are a legal document assistant.\n\nGenerate a formal, clear, and professional Power of Attorney document.\n\n- Include the parties\x27 full names and roles.\n- Specify the authority granted clearly.\n- Use formal legal language.\n- Include date and place placeholders.\n- The tone should be respectful, precise, and legally binding.\n"
  letter_of_association := "\nYou are a legal document assistant.\n\nGenerate a formal Letter of Association for a consortium of firms joining for a project.\n\n- List all participating firms with roles.\n- Specify the purpose of association.\n- Include obligations and collaboration terms briefly.\n- Use formal legal language.\n- Include date and place placeholders.\n"

/-- Portuguese legal templates. -/
def portugueseLegalTemplates : LegalTemplates where
  power_of_attorney := "\nVocê é um assistente de documentos legais.\n\nGere uma procuração formal, clara e profissional.\n\n- Inclua os nomes completos das partes e seus papéis.\n- Especifique claramente os poderes concedidos.\n- Use linguagem jurídica formal.\n- Inclua espaços para data e local.\n- O tom deve ser respeitoso, preciso e juridicamente vinculativo.\n"
  letter_of_association := "\nVocê é um assistente de documentos legais.\n\nGere uma Carta de Associação formal para um consórcio de empresas que se unem para um projeto.\n\n- Liste todas as empresas participantes com seus papéis.\n- Especifique o propósito da associação.\n- Inclua brevemente obrigações e termos de colaboração.\n- Use linguagem jurídica formal.\n- Inclua espaços para data e local.\n"

/-- Spanish legal templates. -/
def spanishLegalTemplates : LegalTemplates where
  power_of_attorney := "\nEres un asistente de documentos legales.\n\nGenera un poder notarial formal, claro y profesional.\n\n- Incluye los nombres completos de las partes y sus roles.\n- Especifica claramente la autoridad otorgada.\n- Usa lenguaje legal formal.\n- Incluye espacios para fecha y lugar.\n- El tono debe ser respetuoso, preciso y legalmente vinculante.\n"
  letter_of_association := "\nEres un asistente de documentos legales.\n\nGenera una Carta de Asociación formal para un consorcio de empresas que se unen para un proyecto.\n\n- Enumera todas las empresas participantes con roles.\n- Especifica el propósito de la asociación.\n- Incluye brevemente las obligaciones y términos de colaboración.\n- Usa lenguaje legal formal.\n- Incluye espacios para fecha y lugar.\n"

/-- Translation of `get_language_legal_templates`: lowercase the language and
look it up in the template dict, defaulting to English. -/
def get_language_legal_templates (language : String) : LegalTemplates :=
  let language := pyLower language
  if language = "english" then englishLegalTemplates
  else if language = "portuguese" then portugueseLegalTemplates
  else if language = "spanish" then spanishLegalTemplates
  else englishLegalTemplates

/-- Translation of `legal_docs.build_prompt`.  Accessing `parties[0]` or
`parties[1]` on a too-short list raises `IndexError` in Python, modelled by
the catch-all match arm; an unsupported `doc_type` raises `ValueError`. -/
def build_prompt (doc_type : String) (parties : List Party) (project_name : String)
    (language : String) : Except PyError String :=
  let language_templates := get_language_legal_templates language
  if doc_type = "power_of_attorney" then
    match parties with
    | p0 :: p1 :: _ =>
      Except.ok (pyStripS ("\n" ++ language_templates.power_of_attorney ++
        "\n\nProject Name: " ++ project_name ++
        "\n\nPrincipal: " ++ p0.name ++ " (" ++ p0.role ++
        ")\nAttorney-in-fact: " ++ p1.name ++ " (" ++ p1.role ++
        ")\n\nGenerate the full legal Power of Attorney document below:\n"))
    | _ => Except.error PyError.indexError
  else if doc_type = "letter_of_association" then
    Except.ok (pyStripS ("\n" ++ language_templates.letter_of_association ++
      "\n\nProject Name: " ++ project_name ++
      "\n\nParticipating Firms:\n" ++
      pyJoin "\n" (parties.map fun p => "- " ++ p.name ++ " (" ++ p.role ++ ")") ++
      "\n\nGenerate the full legal Letter of Association document below:\n"))
  else Except.error (PyError.valueError "Unsupported document type")

/-- Translation of `generate_legal_document`.  The prompt is built before the
`try` block, so build failures propagate; a provider failure is caught and
turned into a degraded text value. -/
def generate_legal_document (provider : String → Except String String)
    (doc_type : String) (parties : List Party) (project_name : String)
    (language : String) : Except PyError String :=
  match build_prompt doc_type parties project_name language with
  | Except.error e => Except.error e
  | Except.ok prompt =>
    match provider prompt with
    | Except.ok text => Except.ok (pyStripS text)
    | Except.error e => Except.ok ("Error generating legal document: " ++ e)

end LegalDocs

/-! Embedding of `company_profiles.py`. -/

namespace CompanyProfiles

/-- The `firm` dict: name, description and two string lists. -/
structure Firm where
  name : String
  description : String
  certifications : List String
  achievements : List String

/-- Per-language example and instruction templates for company profiles. -/
structure ProfileTemplates where
  example' : String
  instructions : String

/-- Languages accepted by `company_profiles.build_prompt`. -/
def SUPPORTED_LANGUAGES : List String := ["english", "portuguese", "spanish"]

/-- English profile templates (verbatim from the `templates` dict literal). -/
def englishProfileTemplates : ProfileTemplates where
  example' := "\nExample Company Profile:\n\n**Alpha Consulting**\nAlpha Consulting is a leading engineering firm with over 20 years of experience in infrastructure development.\nKey Strengths:\n- Expertise in smart city solutions\n- ISO 9001 and ISO 14001 certified\n- Proven track record with 50+ projects completed in 10 countries\n\nContact: contact@alphaconsulting.com | +1-555-1234\n"
  instructions := "\nYou are an expert technical writer. Generate a concise, engaging company profile section for a proposal.\n\n- Use the English language.\n- Include company name, core competencies, certifications, and notable achievements.\n- Highlight relevance to the current project.\n- Keep it under 200 words.\n- Format with headings and bullet points for clarity.\n"

/-- Portuguese profile templates. -/
def portugueseProfileTemplates : ProfileTemplates where
  example' := "\nExemplo de Perfil da Empresa:\n\n**Alpha Consulting**\nA Alpha Consulting é uma empresa líder em engenharia com mais de 20 anos de experiência em desenvolvimento de infraestrutura.\nPrincipais Pontos Fortes:\n- Especialização em soluções de cidades inteligentes\n- Certificações ISO 9001 e ISO 14001\n- Histórico comprovado com mais de 50 projetos concluídos em 10 países\n\nContato: contato@alphaconsulting.com | +55-11-5555-1234\n"
  instructions := "\nVocê é um redator técnico especializado. Gere uma seção de perfil da empresa concisa e envolvente para uma proposta.\n\n- Use a língua portuguesa.\n- Inclua nome da empresa, competências principais, certificações e conquistas notáveis.\n- Destaque a relevância para o projeto atual.\n- Mantenha abaixo de 200 palavras.\n- Formate com títulos e marcadores para clareza.\n"

/-- Spanish profile templates. -/
def spanishProfileTemplates : ProfileTemplates where
  example' := "\nEjemplo de Perfil de la Empresa:\n\n**Alpha Consulting**\nAlpha Consulting es una firma de ingeniería líder con más de 20 años de experiencia en desarrollo de infraestructura.\nPuntos Fuertes:\n- Experiencia en soluciones de ciudades inteligentes\n- Certificaciones ISO 9001 e ISO 14001\n- Historial comprobado con más de 50 proyectos completados en 10 países\n\nContacto: contacto@alphaconsulting.com | +34-555-123-456\n"
  instructions := "\nEres un redactor técnico experto. Genera una sección de perfil de empresa concisa y atractiva para una propuesta.\n\n- Usa el idioma español.\n- Incluye nombre de la empresa, competencias clave, certificaciones y logros destacados.\n- Resalta la relevancia para el proyecto actual.\n- Mantén menos de 200 palabras.\n- Formatea con encabezados y viñetas para claridad.\n"

/-- Translation of `get_language_profile_templates`: lowercase the language
and look it up, defaulting to English. -/
def get_language_profile_templates (language : String) : ProfileTemplates :=
  let language := pyLower language
  if language = "english" then englishProfileTemplates
  else if language = "portuguese" then portugueseProfileTemplates
  else if language = "spanish" then spanishProfileTemplates
  else englishProfileTemplates

/-- Translation of `company_profiles.build_prompt`.  An empty joined list is
falsy in Python, so `certs or placeholder` becomes a test against the empty
string. -/
def build_prompt (firm : Firm) (project_relevance : String)
    (language : String) : String :=
  let language := if pyLower language ∈ SUPPORTED_LANGUAGES then pyLower language else "english"
  let tpl := get_language_profile_templates language
  let certs := pyJoin "\n" (firm.certifications.map fun c => "- " ++ c)
  let achievements := pyJoin "\n" (firm.achievements.map fun a => "- " ++ a)
  pyStripS ("\n" ++ tpl.instructions ++
    "\n\nGenerate a company profile using the data below.\n\nCompany Name: " ++ firm.name ++
    "\nDescription: " ++ firm.description ++
    "\nCertifications:\n" ++ (if certs = "" then "- None provided" else certs) ++
    "\nKey Achievements:\n" ++ (if achievements = "" then "- None provided" else achievements) ++
    "\nRelevance to Project: " ++ project_relevance ++
    "\n\n" ++ tpl.example' ++
    "\n\nNow produce the tailored company profile.\n")

/-- Translation of `generate_company_profile`: the whole provider call sits in
a `try` whose handler returns a degraded text value, so the function always
returns a string. -/
def generate_company_profile (provider : String → Except String String)
    (firm : Firm) (project_relevance : String) (language : String) : String :=
  match provider (build_prompt firm project_relevance language) with
  | Except.ok text => pyStripS text
  | Except.error e => "Error generating company profile: " ++ e

end CompanyProfiles

/-! Embedding of `project_lists.py`. -/

namespace ProjectLists

/-- Entry of the `past_projects` list: a dict with keys `title` and
`description`. -/
structure PastProject where
  title : String
  description : String

/-- Translation of `project_lists.build_prompt` (the JSON schema braces of
the Python template are written with hexadecimal escapes). -/
def build_prompt (current_project : String) (past_projects : List PastProject) : String :=
  let project_list_text := pyJoin "\n"
    (past_projects.enum.map fun ip =>
      toString (ip.1 + 1) ++ ". Title: " ++ ip.2.title ++ "\n   Description: " ++ ip.2.description)
  pyStripS ("\nYou are a proposal analyst. Given the current project and a list of past projects, do the following:\n\n1. For each past project, rate its relevancy to the CURRENT PROJECT on a scale of 0–100.\n2. Provide a one-sentence rationale for each rating.\n3. Suggest three additional project ideas or case studies (title + one-line description) that would strengthen our proposal.\n\nUse this format in JSON (no extra text):\n\x7b\n  \"evaluations\": [\n    \x7b\n      \"title\": \"Project Title\",\n      \"score\": 0–100,\n      \"rationale\": \"One sentence justification\"\n    \x7d,\n    ...\n  ],\n  \"additional_recommendations\": [\n    \x7b\n      \"title\": \"Recommended Project Title\",\n      \"description\": \"One-line description\"\n    \x7d,\n    ...\n  ]\n\x7d\n\nCURRENT PROJECT:\n\"\"\"" ++ current_project ++ "\"\"\"\n\nPAST PROJECTS:\n" ++ project_list_text ++ "\n")

/-- Translation of `generate_project_list`: strip the provider response,
`json.loads` it and return the parsed value unchanged.  A JSON decode failure
is re-raised as `ValueError` carrying the raw response; any provider failure
is re-raised as `RuntimeError`.  No shape validation is performed. -/
def generate_project_list (provider : String → Except String String)
    (current_project : String) (past_projects : List PastProject) : Except PyError Json :=
  let prompt := build_prompt current_project past_projects
  match provider prompt with
  | Except.error e => Except.error (PyError.runtimeError ("OpenAI API error: " ++ e))
  | Except.ok text =>
    let content := pyStripS text
    match json_loads content with
    | some data => Except.ok data
    | none => Except.error (PyError.valueError
        ("Failed to parse JSON from model response\nRaw response:\n" ++ content))

end ProjectLists

/-! Embedding of `contacts.py`. -/

namespace Contacts

/-- A contact dict; keys may be absent, so it is an association list. -/
abbrev Contact := List (String × String)

/-- Value used to sort a contact: `x.get(order_by, "")`. -/
def contactKey (order_by : String) (c : Contact) : String :=
  (List.lookup order_by c).getD ""

/-- Translation of `format_contact`: the four keys are read left to right and
a missing one raises `KeyError`. -/
def format_contact (c : Contact) : Except PyError String :=
  match List.lookup "name" c with
  | none => Except.error (PyError.keyError "name")
  | some n =>
    match List.lookup "role" c with
    | none => Except.error (PyError.keyError "role")
    | some r =>
      match List.lookup "email" c with
      | none => Except.error (PyError.keyError "email")
      | some e =>
        match List.lookup "phone" c with
        | none => Except.error (PyError.keyError "phone")
        | some p =>
          Except.ok ("Name: " ++ n ++ "\nRole: " ++ r ++ "\nEmail: " ++ e ++ "\nPhone: " ++ p)

/-- The list comprehension `[format_contact(c) for c in sorted_contacts]`:
formats each contact in order, stopping at the first raised error. -/
def formatAll : List Contact → Except PyError (List String)
  | [] => Except.ok []
  | c :: cs =>
    match format_contact c with
    | Except.error e => Except.error e
    | Except.ok s =>
      match formatAll cs with
      | Except.error e => Except.error e
      | Except.ok ss => Except.ok (s :: ss)

/-- Python `sorted(contacts, key=lambda x: x.get(order_by, ""))`: a stable
sort by the requested field, modelled by insertion sort (which is stable and
produces the same list as any stable sort for a total preorder). -/
def sortedContacts (contacts : List Contact) (order_by : String) : List Contact :=
  List.insertionSort (fun a b => contactKey order_by a ≤ contactKey order_by b) contacts

/-- Translation of `generate_contact_list`. -/
def generate_contact_list (contacts : List Contact) (order_by : String) :
    Except PyError (List String) :=
  formatAll (sortedContacts contacts order_by)

end Contacts

/-! Concrete inputs used by claim witnesses and counterexamples. -/

/-- Prompt value built for the C7 witness call. -/
def c7SamplePrompt : String :=
  match LegalDocs.build_prompt "power_of_attorney"
      [⟨"John Doe", "Principal"⟩, ⟨"Jane Smith", "Attorney-in-fact"⟩]
      "Renewable Energy Project" "english" with
  | Except.ok s => s
  | Except.error _ => ""

/-- Response body used for the C1 counterexample: 2 evaluations (one with
score 150) and 1 recommendation. -/
def c1Body : String :=
  "\x7b\"evaluations\": [\x7b\"title\": \"Urban Smart Grid Deployment\", \"score\": 150, \"rationale\": \"r1\"\x7d, \x7b\"title\": \"IoT Environmental Monitoring\", \"score\": 40, \"rationale\": \"r2\"\x7d], \"additional_recommendations\": [\x7b\"title\": \"T\", \"description\": \"D\"\x7d]\x7d"

/-- Parsed value of `c1Body`. -/
def c1Value : Json :=
  Json.obj
    [("evaluations", Json.arr
        [Json.obj [("title", Json.str "Urban Smart Grid Deployment"),
                   ("score", Json.num 150), ("rationale", Json.str "r1")],
         Json.obj [("title", Json.str "IoT Environmental Monitoring"),
                   ("score", Json.num 40), ("rationale", Json.str "r2")]]),
     ("additional_recommendations", Json.arr
        [Json.obj [("title", Json.str "T"), ("description", Json.str "D")]])]

/-- Past-projects input used for the C1 counterexample. -/
def c1Past : List ProjectLists.PastProject :=
  [⟨"Urban Smart Grid Deployment", "d1"⟩,
   ⟨"IoT Environmental Monitoring", "d2"⟩,
   ⟨"Rural Solar Expansion", "d3"⟩]

/-- Response body used for the C2 counterexample: valid JSON with 2
evaluations for 3 past projects. -/
def c2Body : String :=
  "\x7b\"evaluations\": [\x7b\"title\": \"Bridge Retrofit\", \"score\": 90, \"rationale\": \"s1\"\x7d, \x7b\"title\": \"Dam Survey\", \"score\": 20, \"rationale\": \"s2\"\x7d], \"additional_recommendations\": []\x7d"

/-- Parsed value of `c2Body`. -/
def c2Value : Json :=
  Json.obj
    [("evaluations", Json.arr
        [Json.obj [("title", Json.str "Bridge Retrofit"),
                   ("score", Json.num 90), ("rationale", Json.str "s1")],
         Json.obj [("title", Json.str "Dam Survey"),
                   ("score", Json.num 20), ("rationale", Json.str "s2")]]),
     ("additional_recommendations", Json.arr [])]

/-- Past-projects input used for the C2 counterexample. -/
def c2Past : List ProjectLists.PastProject :=
  [⟨"Bridge Retrofit", "e1"⟩, ⟨"Dam Survey", "e2"⟩, ⟨"Road Expansion", "e3"⟩]


/-- The resolved language of `company_profiles.build_prompt`: the lowercased
input when supported, otherwise "english" (names the subexpression
`language.lower() if language.lower() in SUPPORTED_LANGUAGES else "english"`). -/
def CompanyProfiles.resolvedLang (lang : String) : String :=
  if pyLower lang ∈ CompanyProfiles.SUPPORTED_LANGUAGES then pyLower lang else "english"

/-- The certifications block of the profile prompt: the joined bullet lines,
or the placeholder when the join is empty (names the subexpression
`certs or \x27- None provided\x27` of `build_prompt`). -/
def CompanyProfiles.certBlock (firm : CompanyProfiles.Firm) : String :=
  let certs := pyJoin "\n" (firm.certifications.map fun c => "- " ++ c)
  if certs = "" then "- None provided" else certs

/-- The achievements block of the profile prompt, analogous to `certBlock`. -/
def CompanyProfiles.achBlock (firm : CompanyProfiles.Firm) : String :=
  let achievements := pyJoin "\n" (firm.achievements.map fun a => "- " ++ a)
  if achievements = "" then "- None provided" else achievements

/-- Prompt built for the C4 counterexample call. -/
def c4SamplePrompt : String :=
  match LegalDocs.build_prompt "power_of_attorney"
      [⟨"John Doe", "Principal"⟩, ⟨"Jane Smith", "Attorney-in-fact"⟩] "P" "english" with
  | Except.ok s => s
  | Except.error _ => ""

/-- Prompt built for the C5 witness call with two parties. -/
def c5Prompt : String :=
  match LegalDocs.build_prompt "power_of_attorney"
      [⟨"John Doe", "Principal"⟩, ⟨"Jane Smith", "Agent"⟩] "Dam Project" "english" with
  | Except.ok s => s
  | Except.error _ => ""

/-! Lemmas about `pyStripS` and substring containment. -/

/-- If a nonempty list starts with a non-whitespace character, dropping
leading whitespace from an extension keeps it intact as an infix. -/
theorem infix_dropWhile_of_head {x l : List Char} {c : Char}
    (hh : x.head? = some c) (hc : isPySpace c = false) (h : x <:+: l) :
    x <:+: l.dropWhile isPySpace := by
  rcases h with ⟨s, t, rfl⟩
  rcases x with _ | ⟨c', x'⟩
  · simp at hh
  · have hcc : c' = c := by simpa using hh
    subst hcc
    rw [List.append_assoc, List.dropWhile_append]
    split
    · rw [List.cons_append, List.dropWhile_cons, if_neg (by simp [hc])]
      exact (List.prefix_append _ _).isInfix
    · exact ⟨s.dropWhile isPySpace, t, by simp⟩

/-- The stripped list is an infix of the original list. -/
theorem pyStripD_infix_self (l : List Char) : pyStripD l <:+: l := by
  have h1 : l.dropWhile isPySpace <:+ l := List.dropWhile_suffix _
  have h2 : (l.dropWhile isPySpace).reverse.dropWhile isPySpace <:+
      (l.dropWhile isPySpace).reverse := List.dropWhile_suffix _
  have h3 : pyStripD l <+: l.dropWhile isPySpace := by
    have := List.reverse_prefix.mpr h2
    simpa [pyStripD] using this
  exact h3.isInfix.trans h1.isInfix

/-- An infix whose first and last characters are not whitespace survives
`pyStripD` of the surrounding list. -/
theorem infix_pyStripD {x l : List Char} {ch cl : Char}
    (hh : x.head? = some ch) (hch : isPySpace ch = false)
    (hl : x.getLast? = some cl) (hcl : isPySpace cl = false)
    (h : x <:+: l) : x <:+: pyStripD l := by
  have step1 : x <:+: l.dropWhile isPySpace := infix_dropWhile_of_head hh hch h
  have step2 : x.reverse <:+: (l.dropWhile isPySpace).reverse :=
    List.reverse_infix.mpr step1
  have hrev : x.reverse.head? = some cl := by
    rw [List.head?_reverse]; exact hl
  have step3 : x.reverse <:+: (l.dropWhile isPySpace).reverse.dropWhile isPySpace :=
    infix_dropWhile_of_head hrev hcl step2
  have step4 : x <:+:
      ((l.dropWhile isPySpace).reverse.dropWhile isPySpace).reverse := by
    rw [← List.reverse_infix]
    simpa using step3
  simpa [pyStripD] using step4

/-- String-level version of `infix_pyStripD`. -/
theorem strInfix_pyStrip {x s : String} {ch cl : Char}
    (hh : x.data.head? = some ch) (hch : isPySpace ch = false)
    (hl : x.data.getLast? = some cl) (hcl : isPySpace cl = false)
    (h : x.data <:+: s.data) : strInfix x (pyStripS s) :=
  infix_pyStripD hh hch hl hcl h

/-- An infix witnessed by an explicit decomposition of the character list. -/
theorem strData_infix_parts {x : String} {l : List Char} (a b : List Char)
    (h : l = a ++ x.data ++ b) : x.data <:+: l :=
  ⟨a, b, h.symm⟩

/-! Lemmas about the stable sort used by `generate_contact_list`. -/

/-- Filtering on the sort key commutes with `orderedInsert`: the inserted
element lands exactly at the front of its key class. -/
theorem filter_orderedInsert (ob k : String) (x : Contacts.Contact)
    (m : List Contacts.Contact) :
    (List.orderedInsert (fun a b => Contacts.contactKey ob a ≤ Contacts.contactKey ob b) x
        m).filter (fun c => Contacts.contactKey ob c == k)
    = if Contacts.contactKey ob x == k then
        x :: m.filter (fun c => Contacts.contactKey ob c == k)
      else m.filter (fun c => Contacts.contactKey ob c == k) := by
  induction m with
  | nil => simp [List.filter_cons]
  | cons b m ih =>
    rw [List.orderedInsert]
    by_cases h : Contacts.contactKey ob x ≤ Contacts.contactKey ob b
    · rw [if_pos h]
      simp [List.filter_cons]
    · rw [if_neg h]
      rw [List.filter_cons, ih]
      by_cases hx : Contacts.contactKey ob x = k
      · have hbk : ¬ Contacts.contactKey ob b = k := by
          intro hbk
          exact h (hbk ▸ hx ▸ le_refl _)
        simp [hx, hbk, List.filter_cons]
      · simp [hx, List.filter_cons]

/-- Filtering on the sort key commutes with the stable sort: ties keep their
input order. -/
theorem filter_sortedContacts (ob k : String) (l : List Contacts.Contact) :
    (Contacts.sortedContacts l ob).filter (fun c => Contacts.contactKey ob c == k)
    = l.filter (fun c => Contacts.contactKey ob c == k) := by
  induction l with
  | nil => rfl
  | cons x l ih =>
    show (List.orderedInsert _ x (List.insertionSort _ l)).filter _ = _
    rw [filter_orderedInsert]
    show _ = (x :: l).filter _
    rw [List.filter_cons]
    have ih' : (List.insertionSort
        (fun a b => Contacts.contactKey ob a ≤ Contacts.contactKey ob b) l).filter
        (fun c => Contacts.contactKey ob c == k)
        = l.filter (fun c => Contacts.contactKey ob c == k) := ih
    rw [ih']

/-- If some contact of the list cannot be formatted, formatting the whole
list raises. -/
theorem formatAll_error {m : List Contacts.Contact} {c : Contacts.Contact} {e' : PyError}
    (hc : c ∈ m) (hf : Contacts.format_contact c = Except.error e') :
    ∃ e, Contacts.formatAll m = Except.error e := by
  induction m with
  | nil => cases hc
  | cons a m ih =>
    rcases List.mem_cons.mp hc with rfl | hm
    · exact ⟨e', by simp [Contacts.formatAll, hf]⟩
    · cases hfa : Contacts.format_contact a with
      | error ea => exact ⟨ea, by simp [Contacts.formatAll, hfa]⟩
      | ok s =>
        obtain ⟨e, he⟩ := ih hm
        exact ⟨e, by simp [Contacts.formatAll, hfa, he]⟩

/-! Lemmas about `pyJoin`. -/

/-- The accumulator of the join fold is a prefix of the result. -/
theorem pyJoin_foldl_data (sep : String) (xs : List String) (acc : String) :
    ∃ t, (xs.foldl (fun a y => a ++ sep ++ y) acc).data = acc.data ++ t := by
  induction xs generalizing acc with
  | nil => exact ⟨[], by simp⟩
  | cons y ys ih =>
    obtain ⟨t, ht⟩ := ih (acc ++ sep ++ y)
    refine ⟨sep.data ++ y.data ++ t, ?_⟩
    rw [List.foldl_cons, ht]
    simp

/-- Joining a nonempty bullet list never yields the empty string. -/
theorem pyJoin_bullets_ne_empty (c : String) (cs : List String) :
    pyJoin "\n" ((c :: cs).map fun s => "- " ++ s) ≠ "" := by
  intro hemp
  obtain ⟨t, ht⟩ := pyJoin_foldl_data "\n" (cs.map fun s => "- " ++ s) ("- " ++ c)
  have hdata : (pyJoin "\n" ((c :: cs).map fun s => "- " ++ s)).data
      = ("- " ++ c).data ++ t := by
    simpa [pyJoin] using ht
  rw [hemp] at hdata
  have h2 : ("- " ++ c).data = '-' :: ' ' :: c.data := by
    have hlit : ("- " : String).data = ['-', ' '] := rfl
    simp [hlit]
  rw [h2] at hdata
  have h3 : ([] : List Char) = ('-' :: ' ' :: c.data) ++ t := hdata
  simp at h3

/-! Claim theorems. -/

/-- C8: for every list of contacts and every requested sort field,
`generate_contact_list` returns the formatted contacts ordered by a stable
sort on that field (ties keep input order, witnessed by the filter identity),
where a contact lacking the sort field is compared as the empty string (the
key function `contactKey`). -/
theorem c8_contact_list_stable_sort (contacts : List Contacts.Contact) (order_by : String) :
    Contacts.generate_contact_list contacts order_by
      = Contacts.formatAll (Contacts.sortedContacts contacts order_by)
    ∧ List.Sorted (fun a b => Contacts.contactKey order_by a ≤ Contacts.contactKey order_by b)
        (Contacts.sortedContacts contacts order_by)
    ∧ ∀ k : String,
        (Contacts.sortedContacts contacts order_by).filter
            (fun c => Contacts.contactKey order_by c == k)
          = contacts.filter (fun c => Contacts.contactKey order_by c == k) := by
  refine ⟨rfl, ?_, fun k => filter_sortedContacts order_by k contacts⟩
  haveI : IsTotal Contacts.Contact
      (fun a b => Contacts.contactKey order_by a ≤ Contacts.contactKey order_by b) :=
    ⟨fun a b => le_total _ _⟩
  haveI : IsTrans Contacts.Contact
      (fun a b => Contacts.contactKey order_by a ≤ Contacts.contactKey order_by b) :=
    ⟨fun _ _ _ h1 h2 => le_trans h1 h2⟩
  exact List.sorted_insertionSort _ _

/-- C10: if any contact of the input lacks one of the keys name, role, email
or phone, the whole call fails with a raised error and returns no list. -/
theorem c10_missing_key_fails (contacts : List Contacts.Contact) (order_by : String)
    (c : Contacts.Contact) (hc : c ∈ contacts)
    (hmiss : List.lookup "name" c = none ∨ List.lookup "role" c = none
      ∨ List.lookup "email" c = none ∨ List.lookup "phone" c = none) :
    ∃ e, Contacts.generate_contact_list contacts order_by = Except.error e := by
  have hcs : c ∈ Contacts.sortedContacts contacts order_by := by
    simpa [Contacts.sortedContacts] using hc
  obtain ⟨e', hf⟩ : ∃ e', Contacts.format_contact c = Except.error e' := by
    unfold Contacts.format_contact
    rcases hmiss with h | h | h | h
    · rw [h]; exact ⟨_, rfl⟩
    · cases hn : List.lookup "name" c
      · exact ⟨_, rfl⟩
      · rw [h]; exact ⟨_, rfl⟩
    · cases hn : List.lookup "name" c
      · exact ⟨_, rfl⟩
      · cases hr : List.lookup "role" c
        · exact ⟨_, rfl⟩
        · rw [h]; exact ⟨_, rfl⟩
    · cases hn : List.lookup "name" c
      · exact ⟨_, rfl⟩
      · cases hr : List.lookup "role" c
        · exact ⟨_, rfl⟩
        · cases he : List.lookup "email" c
          · exact ⟨_, rfl⟩
          · rw [h]; exact ⟨_, rfl⟩
  exact formatAll_error hcs hf

/-- C10 witness: a concrete contact missing the role, email and phone keys
makes the whole call fail. -/
theorem c10_missing_key_fails_witness :
    ∃ e, Contacts.generate_contact_list [[("name", "Ann")]] "name" = Except.error e :=
  c10_missing_key_fails [[("name", "Ann")]] "name" [("name", "Ann")]
    (by simp) (Or.inr (Or.inl rfl))

/-- C3: for every document kind and payload, an unsupported (or empty) locale
produces exactly the same prompt as the locale "english", in both the legal
prompt builder and the company profile prompt builder. -/
theorem c3_unknown_locale_equals_english (lang : String)
    (h : pyLower lang ∉ CompanyProfiles.SUPPORTED_LANGUAGES) :
    (∀ doc_type parties project_name,
      LegalDocs.build_prompt doc_type parties project_name lang
        = LegalDocs.build_prompt doc_type parties project_name "english")
    ∧ ∀ firm rel,
      CompanyProfiles.build_prompt firm rel lang
        = CompanyProfiles.build_prompt firm rel "english" := by
  have hE : pyLower lang ≠ "english" := fun he =>
    h (by rw [he]; simp [CompanyProfiles.SUPPORTED_LANGUAGES])
  have hP : pyLower lang ≠ "portuguese" := fun he =>
    h (by rw [he]; simp [CompanyProfiles.SUPPORTED_LANGUAGES])
  have hS : pyLower lang ≠ "spanish" := fun he =>
    h (by rw [he]; simp [CompanyProfiles.SUPPORTED_LANGUAGES])
  have hEn : pyLower "english" = "english" := rfl
  constructor
  · intro doc_type parties project_name
    have htpl : LegalDocs.get_language_legal_templates lang
        = LegalDocs.get_language_legal_templates "english" := by
      simp [LegalDocs.get_language_legal_templates, hE, hP, hS, hEn]
    unfold LegalDocs.build_prompt
    rw [htpl]
  · intro firm rel
    have hmemEn : pyLower "english" ∈ CompanyProfiles.SUPPORTED_LANGUAGES := by
      rw [hEn]; simp [CompanyProfiles.SUPPORTED_LANGUAGES]
    unfold CompanyProfiles.build_prompt
    rw [if_neg h, if_pos hmemEn, hEn]

/-- C3 witness: the empty locale builds the same prompts as "english". -/
theorem c3_unknown_locale_equals_english_witness :
    (∀ doc_type parties project_name,
      LegalDocs.build_prompt doc_type parties project_name ""
        = LegalDocs.build_prompt doc_type parties project_name "english")
    ∧ ∀ firm rel,
      CompanyProfiles.build_prompt firm rel ""
        = CompanyProfiles.build_prompt firm rel "english" :=
  c3_unknown_locale_equals_english "" (by decide)

/-- C6: a parties list of fewer than 2 entries for power_of_attorney, or an
unsupported document kind, makes `generate_legal_document` fail with a raised
error whose value does not depend on the provider — the provider is never
consulted and the failure is not converted into a degraded text value. -/
theorem c6_bad_input_fails_before_provider (doc_type : String)
    (parties : List LegalDocs.Party) (project_name lang : String)
    (h : doc_type ∉ ["power_of_attorney", "letter_of_association"]
      ∨ (doc_type = "power_of_attorney" ∧ parties.length < 2)) :
    ∃ e, ∀ provider,
      LegalDocs.generate_legal_document provider doc_type parties project_name lang
        = Except.error e := by
  rcases h with h | ⟨rfl, hlen⟩
  · have h1 : doc_type ≠ "power_of_attorney" := fun he => h (by simp [he])
    have h2 : doc_type ≠ "letter_of_association" := fun he => h (by simp [he])
    refine ⟨PyError.valueError "Unsupported document type", fun provider => ?_⟩
    unfold LegalDocs.generate_legal_document LegalDocs.build_prompt
    rw [if_neg h1, if_neg h2]
  · refine ⟨PyError.indexError, fun provider => ?_⟩
    unfold LegalDocs.generate_legal_document LegalDocs.build_prompt
    rw [if_pos rfl]
    rcases parties with _ | ⟨p0, _ | ⟨p1, rest⟩⟩
    · rfl
    · rfl
    · exact absurd hlen (by simp [List.length_cons])

/-- C6 witness: an unsupported document kind fails identically for every
provider. -/
theorem c6_bad_input_fails_before_provider_witness :
    ∃ e, ∀ provider,
      LegalDocs.generate_legal_document provider "contract" [] "P" "english"
        = Except.error e :=
  c6_bad_input_fails_before_provider "contract" [] "P" "english" (Or.inl (by decide))

/-- C7: when the provider invocation fails, `generate_legal_document` and
`generate_company_profile` catch the failure and return a description-bearing
error string as the result value, whereas `generate_project_list` re-raises
it as a hard failure and returns no value. -/
theorem c7_provider_failure_handling (provider : String → Except String String)
    (doc_type : String) (parties : List LegalDocs.Party) (project_name lang : String)
    (p e1 : String) (firm : CompanyProfiles.Firm) (rel e2 : String)
    (current : String) (past : List ProjectLists.PastProject) (e3 : String)
    (hb : LegalDocs.build_prompt doc_type parties project_name lang = Except.ok p)
    (h1 : provider p = Except.error e1)
    (h2 : provider (CompanyProfiles.build_prompt firm rel lang) = Except.error e2)
    (h3 : provider (ProjectLists.build_prompt current past) = Except.error e3) :
    LegalDocs.generate_legal_document provider doc_type parties project_name lang
      = Except.ok ("Error generating legal document: " ++ e1)
    ∧ CompanyProfiles.generate_company_profile provider firm rel lang
      = "Error generating company profile: " ++ e2
    ∧ ProjectLists.generate_project_list provider current past
      = Except.error (PyError.runtimeError ("OpenAI API error: " ++ e3)) := by
  refine ⟨?_, ?_, ?_⟩
  · simp [LegalDocs.generate_legal_document, hb, h1]
  · simp [CompanyProfiles.generate_company_profile, h2]
  · simp [ProjectLists.generate_project_list, h3]

/-- C7 witness: with a provider that always raises, the legal and profile
facades return degraded strings and the project facade raises. -/
theorem c7_provider_failure_handling_witness :
    LegalDocs.generate_legal_document (fun _ => Except.error "boom") "power_of_attorney"
      [⟨"John Doe", "Principal"⟩, ⟨"Jane Smith", "Attorney-in-fact"⟩]
      "Renewable Energy Project" "english"
      = Except.ok ("Error generating legal document: " ++ "boom")
    ∧ CompanyProfiles.generate_company_profile (fun _ => Except.error "boom")
      ⟨"Alpha", "desc", [], []⟩ "rel" "english"
      = "Error generating company profile: " ++ "boom"
    ∧ ProjectLists.generate_project_list (fun _ => Except.error "boom") "cur" []
      = Except.error (PyError.runtimeError ("OpenAI API error: " ++ "boom")) :=
  c7_provider_failure_handling (fun _ => Except.error "boom") "power_of_attorney"
    [⟨"John Doe", "Principal"⟩, ⟨"Jane Smith", "Attorney-in-fact"⟩]
    "Renewable Energy Project" "english" c7SamplePrompt "boom"
    ⟨"Alpha", "desc", [], []⟩ "rel" "boom" "cur" [] "boom" rfl rfl rfl rfl

/-- C1 (amended): a successful call of `generate_project_list` returns
exactly the JSON value parsed from the (stripped) provider response; no
validation of the evaluations count, the score range or the recommendations
count is performed. -/
theorem c1_returns_parsed_json_unvalidated (provider : String → Except String String)
    (current : String) (past : List ProjectLists.PastProject) (text : String) (v : Json)
    (hp : provider (ProjectLists.build_prompt current past) = Except.ok text)
    (hj : json_loads (pyStripS text) = some v) :
    ProjectLists.generate_project_list provider current past = Except.ok v := by
  simp [ProjectLists.generate_project_list, hp, hj]

/-- C1 witness: a provider returning an empty JSON object makes the call
succeed with that object. -/
theorem c1_returns_parsed_json_unvalidated_witness :
    ProjectLists.generate_project_list (fun _ => Except.ok "\x7b\x7d") "cur" []
      = Except.ok (Json.obj []) :=
  c1_returns_parsed_json_unvalidated (fun _ => Except.ok "\x7b\x7d") "cur" []
    "\x7b\x7d" (Json.obj []) rfl rfl

set_option maxRecDepth 8000 in
/-- C1 counterexample: with 3 past projects, a response carrying only 2
evaluations, a score of 150 and a single recommendation is returned
successfully and unchanged, violating every part of the claimed invariant. -/
theorem c1_counterexample :
    ProjectLists.generate_project_list (fun _ => Except.ok c1Body)
        "AI-based water conservation" c1Past = Except.ok c1Value
    ∧ c1Past.length = 3
    ∧ evaluationsLength c1Value = some 2
    ∧ evaluationScores c1Value = some [150, 40]
    ∧ recommendationsLength c1Value = some 1 :=
  ⟨rfl, rfl, rfl, rfl, rfl⟩

/-- C2 (amended): a provider response that is not valid JSON makes
`generate_project_list` fail with a raised ValueError carrying the raw
response, returning no value; a response whose evaluations count disagrees
with the number of past projects is not detected (see the counterexample). -/
theorem c2_invalid_json_raises (provider : String → Except String String)
    (current : String) (past : List ProjectLists.PastProject) (text : String)
    (hp : provider (ProjectLists.build_prompt current past) = Except.ok text)
    (hj : json_loads (pyStripS text) = none) :
    ProjectLists.generate_project_list provider current past
      = Except.error (PyError.valueError
          ("Failed to parse JSON from model response\nRaw response:\n" ++ pyStripS text)) := by
  simp [ProjectLists.generate_project_list, hp, hj]

/-- C2 witness: a non-JSON response body raises a ValueError. -/
theorem c2_invalid_json_raises_witness :
    ProjectLists.generate_project_list (fun _ => Except.ok "not json") "cur" []
      = Except.error (PyError.valueError
          ("Failed to parse JSON from model response\nRaw response:\n" ++ pyStripS "not json")) :=
  c2_invalid_json_raises (fun _ => Except.ok "not json") "cur" [] "not json" rfl rfl

set_option maxRecDepth 8000 in
/-- C2 counterexample: a response with 2 evaluations for 3 supplied past
projects does not fail with a ValidationError — it is returned successfully. -/
theorem c2_counterexample :
    ProjectLists.generate_project_list (fun _ => Except.ok c2Body)
        "Water treatment plant" c2Past = Except.ok c2Value
    ∧ evaluationsLength c2Value = some 2
    ∧ c2Past.length = 3 :=
  ⟨rfl, rfl, rfl⟩

/-! Decomposition lemmas for the built prompts. -/

/-- The power-of-attorney prompt succeeds for two or more parties and
contains the stripped instruction template. -/
theorem legal_poa_instr_infix (p0 p1 : LegalDocs.Party) (rest : List LegalDocs.Party)
    (project_name lang : String) (ch cl : Char)
    (hh : (pyStripD ((LegalDocs.get_language_legal_templates lang).power_of_attorney).data).head?
      = some ch)
    (hch : isPySpace ch = false)
    (hl : (pyStripD ((LegalDocs.get_language_legal_templates lang).power_of_attorney).data).getLast?
      = some cl)
    (hcl : isPySpace cl = false) :
    ∃ q, LegalDocs.build_prompt "power_of_attorney" (p0 :: p1 :: rest) project_name lang
        = Except.ok q
      ∧ strInfix (pyStripS (LegalDocs.get_language_legal_templates lang).power_of_attorney) q := by
  have hbp : LegalDocs.build_prompt "power_of_attorney" (p0 :: p1 :: rest) project_name lang
      = Except.ok (pyStripS ("\n" ++ (LegalDocs.get_language_legal_templates lang).power_of_attorney ++
        "\n\nProject Name: " ++ project_name ++
        "\n\nPrincipal: " ++ p0.name ++ " (" ++ p0.role ++
        ")\nAttorney-in-fact: " ++ p1.name ++ " (" ++ p1.role ++
        ")\n\nGenerate the full legal Power of Attorney document below:\n")) := rfl
  refine ⟨_, hbp, ?_⟩
  apply strInfix_pyStrip hh hch hl hcl
  refine (pyStripD_infix_self _).trans ?_
  simp only [String.data_append, List.append_assoc]
  exact List.infix_append' _ _ _

/-- The letter-of-association prompt contains the stripped instruction
template. -/
theorem legal_loa_instr_infix (parties : List LegalDocs.Party)
    (project_name lang : String) (ch cl : Char)
    (hh : (pyStripD ((LegalDocs.get_language_legal_templates lang).letter_of_association).data).head?
      = some ch)
    (hch : isPySpace ch = false)
    (hl : (pyStripD ((LegalDocs.get_language_legal_templates lang).letter_of_association).data).getLast?
      = some cl)
    (hcl : isPySpace cl = false) :
    ∃ q, LegalDocs.build_prompt "letter_of_association" parties project_name lang
        = Except.ok q
      ∧ strInfix (pyStripS (LegalDocs.get_language_legal_templates lang).letter_of_association) q := by
  have hbp : LegalDocs.build_prompt "letter_of_association" parties project_name lang
      = Except.ok (pyStripS ("\n" ++ (LegalDocs.get_language_legal_templates lang).letter_of_association ++
        "\n\nProject Name: " ++ project_name ++
        "\n\nParticipating Firms:\n" ++
        pyJoin "\n" (parties.map fun p => "- " ++ p.name ++ " (" ++ p.role ++ ")") ++
        "\n\nGenerate the full legal Letter of Association document below:\n")) := rfl
  refine ⟨_, hbp, ?_⟩
  apply strInfix_pyStrip hh hch hl hcl
  refine (pyStripD_infix_self _).trans ?_
  simp only [String.data_append, List.append_assoc]
  exact List.infix_append' _ _ _

/-- The company profile prompt contains the stripped instruction template of
its resolved language. -/
theorem profile_instr_infix (firm : CompanyProfiles.Firm) (rel lang : String) (ch cl : Char)
    (hh : (pyStripD ((CompanyProfiles.get_language_profile_templates
        (CompanyProfiles.resolvedLang lang)).instructions).data).head? = some ch)
    (hch : isPySpace ch = false)
    (hl : (pyStripD ((CompanyProfiles.get_language_profile_templates
        (CompanyProfiles.resolvedLang lang)).instructions).data).getLast? = some cl)
    (hcl : isPySpace cl = false) :
    strInfix (pyStripS (CompanyProfiles.get_language_profile_templates
        (CompanyProfiles.resolvedLang lang)).instructions)
      (CompanyProfiles.build_prompt firm rel lang) := by
  have hbp : CompanyProfiles.build_prompt firm rel lang = pyStripS ("\n" ++
      (CompanyProfiles.get_language_profile_templates (CompanyProfiles.resolvedLang lang)).instructions ++
      "\n\nGenerate a company profile using the data below.\n\nCompany Name: " ++ firm.name ++
      "\nDescription: " ++ firm.description ++
      "\nCertifications:\n" ++ CompanyProfiles.certBlock firm ++
      "\nKey Achievements:\n" ++ CompanyProfiles.achBlock firm ++
      "\nRelevance to Project: " ++ rel ++
      "\n\n" ++ (CompanyProfiles.get_language_profile_templates
        (CompanyProfiles.resolvedLang lang)).example' ++
      "\n\nNow produce the tailored company profile.\n") := rfl
  rw [hbp]
  apply strInfix_pyStrip hh hch hl hcl
  refine (pyStripD_infix_self _).trans ?_
  simp only [String.data_append, List.append_assoc]
  exact List.infix_append' _ _ _

/-- The certifications section of the profile prompt, with the surrounding
labels, survives the final strip as a substring. -/
theorem profile_cert_section_infix (firm : CompanyProfiles.Firm) (rel lang : String) :
    strInfix ("Certifications:\n" ++ CompanyProfiles.certBlock firm ++ "\nKey Achievements:")
      (CompanyProfiles.build_prompt firm rel lang) := by
  have hbp : CompanyProfiles.build_prompt firm rel lang = pyStripS ("\n" ++
      (CompanyProfiles.get_language_profile_templates (CompanyProfiles.resolvedLang lang)).instructions ++
      "\n\nGenerate a company profile using the data below.\n\nCompany Name: " ++ firm.name ++
      "\nDescription: " ++ firm.description ++
      "\nCertifications:\n" ++ CompanyProfiles.certBlock firm ++
      "\nKey Achievements:\n" ++ CompanyProfiles.achBlock firm ++
      "\nRelevance to Project: " ++ rel ++
      "\n\n" ++ (CompanyProfiles.get_language_profile_templates
        (CompanyProfiles.resolvedLang lang)).example' ++
      "\n\nNow produce the tailored company profile.\n") := rfl
  rw [hbp]
  have hd : ("Certifications:\n" ++ CompanyProfiles.certBlock firm ++ "\nKey Achievements:"
      : String).data.head? = some 'C' := rfl
  have h1 : ("\nKey Achievements:" : String).data.getLast? = some ':' := rfl
  have hg : ("Certifications:\n" ++ CompanyProfiles.certBlock firm ++ "\nKey Achievements:"
      : String).data.getLast? = some ':' := by
    rw [show ("Certifications:\n" ++ CompanyProfiles.certBlock firm ++ "\nKey Achievements:"
        : String).data
      = (("Certifications:\n" : String).data ++ (CompanyProfiles.certBlock firm).data)
        ++ ("\nKey Achievements:" : String).data from rfl, List.getLast?_append, h1]
    rfl
  apply strInfix_pyStrip hd rfl hg rfl
  refine strData_infix_parts
      (("\n" ++ (CompanyProfiles.get_language_profile_templates
          (CompanyProfiles.resolvedLang lang)).instructions ++
        "\n\nGenerate a company profile using the data below.\n\nCompany Name: " ++ firm.name ++
        "\nDescription: " ++ firm.description ++ "\n" : String)).data
      (("\n" ++ CompanyProfiles.achBlock firm ++
        "\nRelevance to Project: " ++ rel ++
        "\n\n" ++ (CompanyProfiles.get_language_profile_templates
          (CompanyProfiles.resolvedLang lang)).example' ++
        "\n\nNow produce the tailored company profile.\n" : String)).data ?_
  simp [String.data_append, List.append_assoc]

/-- The achievements section of the profile prompt, with the surrounding
labels, survives the final strip as a substring. -/
theorem profile_ach_section_infix (firm : CompanyProfiles.Firm) (rel lang : String) :
    strInfix ("Key Achievements:\n" ++ CompanyProfiles.achBlock firm ++ "\nRelevance to Project:")
      (CompanyProfiles.build_prompt firm rel lang) := by
  have hbp : CompanyProfiles.build_prompt firm rel lang = pyStripS ("\n" ++
      (CompanyProfiles.get_language_profile_templates (CompanyProfiles.resolvedLang lang)).instructions ++
      "\n\nGenerate a company profile using the data below.\n\nCompany Name: " ++ firm.name ++
      "\nDescription: " ++ firm.description ++
      "\nCertifications:\n" ++ CompanyProfiles.certBlock firm ++
      "\nKey Achievements:\n" ++ CompanyProfiles.achBlock firm ++
      "\nRelevance to Project: " ++ rel ++
      "\n\n" ++ (CompanyProfiles.get_language_profile_templates
        (CompanyProfiles.resolvedLang lang)).example' ++
      "\n\nNow produce the tailored company profile.\n") := rfl
  rw [hbp]
  have hd : ("Key Achievements:\n" ++ CompanyProfiles.achBlock firm ++ "\nRelevance to Project:"
      : String).data.head? = some 'K' := rfl
  have h1 : ("\nRelevance to Project:" : String).data.getLast? = some ':' := rfl
  have hg : ("Key Achievements:\n" ++ CompanyProfiles.achBlock firm ++ "\nRelevance to Project:"
      : String).data.getLast? = some ':' := by
    rw [show ("Key Achievements:\n" ++ CompanyProfiles.achBlock firm ++ "\nRelevance to Project:"
        : String).data
      = (("Key Achievements:\n" : String).data ++ (CompanyProfiles.achBlock firm).data)
        ++ ("\nRelevance to Project:" : String).data from rfl, List.getLast?_append, h1]
    rfl
  apply strInfix_pyStrip hd rfl hg rfl
  refine strData_infix_parts
      (("\n" ++ (CompanyProfiles.get_language_profile_templates
          (CompanyProfiles.resolvedLang lang)).instructions ++
        "\n\nGenerate a company profile using the data below.\n\nCompany Name: " ++ firm.name ++
        "\nDescription: " ++ firm.description ++
        "\nCertifications:\n" ++ CompanyProfiles.certBlock firm ++ "\n" : String)).data
      ((" " ++ rel ++
        "\n\n" ++ (CompanyProfiles.get_language_profile_templates
          (CompanyProfiles.resolvedLang lang)).example' ++
        "\n\nNow produce the tailored company profile.\n" : String)).data ?_
  simp [String.data_append, List.append_assoc]

/-- The certifications block is the placeholder when the list is empty. -/
theorem certBlock_of_nil (firm : CompanyProfiles.Firm) (h : firm.certifications = []) :
    CompanyProfiles.certBlock firm = "- None provided" := by
  unfold CompanyProfiles.certBlock
  rw [h]
  rfl

/-- The certifications block is the joined bullet lines when the list is
nonempty. -/
theorem certBlock_of_cons (firm : CompanyProfiles.Firm) (c : String) (cs : List String)
    (h : firm.certifications = c :: cs) :
    CompanyProfiles.certBlock firm = pyJoin "\n" ((c :: cs).map fun s => "- " ++ s) := by
  unfold CompanyProfiles.certBlock
  rw [h]
  exact if_neg (pyJoin_bullets_ne_empty c cs)

/-- The achievements block is the placeholder when the list is empty. -/
theorem achBlock_of_nil (firm : CompanyProfiles.Firm) (h : firm.achievements = []) :
    CompanyProfiles.achBlock firm = "- None provided" := by
  unfold CompanyProfiles.achBlock
  rw [h]
  rfl

/-- The achievements block is the joined bullet lines when the list is
nonempty. -/
theorem achBlock_of_cons (firm : CompanyProfiles.Firm) (a : String) (as : List String)
    (h : firm.achievements = a :: as) :
    CompanyProfiles.achBlock firm = pyJoin "\n" ((a :: as).map fun s => "- " ++ s) := by
  unfold CompanyProfiles.achBlock
  rw [h]
  exact if_neg (pyJoin_bullets_ne_empty a as)

/-- C9: an empty certifications (resp. achievements) list renders an explicit
"- None provided" placeholder line directly under the section label, never an
empty section; a nonempty list renders one "- item" line per element in input
order (the join of the bullet lines), in every built company profile prompt. -/
theorem c9_empty_lists_render_placeholder (firm : CompanyProfiles.Firm) (rel lang : String) :
    (firm.certifications = [] →
      strInfix "Certifications:\n- None provided\nKey Achievements:"
        (CompanyProfiles.build_prompt firm rel lang))
    ∧ (∀ c cs, firm.certifications = c :: cs →
      strInfix ("Certifications:\n" ++ pyJoin "\n" ((c :: cs).map fun s => "- " ++ s)
          ++ "\nKey Achievements:") (CompanyProfiles.build_prompt firm rel lang))
    ∧ (firm.achievements = [] →
      strInfix "Key Achievements:\n- None provided\nRelevance to Project:"
        (CompanyProfiles.build_prompt firm rel lang))
    ∧ (∀ a as, firm.achievements = a :: as →
      strInfix ("Key Achievements:\n" ++ pyJoin "\n" ((a :: as).map fun s => "- " ++ s)
          ++ "\nRelevance to Project:") (CompanyProfiles.build_prompt firm rel lang)) := by
  refine ⟨fun h => ?_, fun c cs h => ?_, fun h => ?_, fun a as h => ?_⟩
  · have hs := profile_cert_section_infix firm rel lang
    rw [certBlock_of_nil firm h] at hs
    have heq : ("Certifications:\n" ++ "- None provided" ++ "\nKey Achievements:" : String)
        = "Certifications:\n- None provided\nKey Achievements:" := rfl
    rwa [heq] at hs
  · have hs := profile_cert_section_infix firm rel lang
    rwa [certBlock_of_cons firm c cs h] at hs
  · have hs := profile_ach_section_infix firm rel lang
    rw [achBlock_of_nil firm h] at hs
    have heq : ("Key Achievements:\n" ++ "- None provided" ++ "\nRelevance to Project:" : String)
        = "Key Achievements:\n- None provided\nRelevance to Project:" := rfl
    rwa [heq] at hs
  · have hs := profile_ach_section_infix firm rel lang
    rwa [achBlock_of_cons firm a as h] at hs

/-- C9 witness: a firm with no certifications and one achievement renders the
placeholder for certifications and the bullet line for achievements. -/
theorem c9_empty_lists_render_placeholder_witness :
    strInfix "Certifications:\n- None provided\nKey Achievements:"
      (CompanyProfiles.build_prompt ⟨"A", "d", [], ["Award 2023"]⟩ "r" "english")
    ∧ strInfix ("Key Achievements:\n" ++ pyJoin "\n" ((["Award 2023"]).map fun s => "- " ++ s)
        ++ "\nRelevance to Project:")
      (CompanyProfiles.build_prompt ⟨"A", "d", [], ["Award 2023"]⟩ "r" "english") :=
  ⟨(c9_empty_lists_render_placeholder ⟨"A", "d", [], ["Award 2023"]⟩ "r" "english").1 rfl,
   (c9_empty_lists_render_placeholder ⟨"A", "d", [], ["Award 2023"]⟩ "r" "english").2.2.2
     "Award 2023" [] rfl⟩

/-- C5: the power-of-attorney prompt built from three parties equals the one
built from the first two alone, so when the third party's name and role do
not occur in that prompt, they occur nowhere in the built prompt. -/
theorem c5_power_of_attorney_uses_first_two_parties (p0 p1 p2 : LegalDocs.Party)
    (project_name lang q : String)
    (hb : LegalDocs.build_prompt "power_of_attorney" [p0, p1] project_name lang = Except.ok q)
    (hn : ¬ strInfix p2.name q) (hr : ¬ strInfix p2.role q) :
    LegalDocs.build_prompt "power_of_attorney" [p0, p1, p2] project_name lang = Except.ok q
    ∧ ¬ strInfix p2.name q ∧ ¬ strInfix p2.role q := by
  refine ⟨?_, hn, hr⟩
  rw [← hb]
  rfl

set_option maxRecDepth 16000 in
/-- C5 witness: a concrete third party with fresh name and role appears
nowhere in the built prompt, which ignores it entirely. -/
theorem c5_power_of_attorney_uses_first_two_parties_witness :
    LegalDocs.build_prompt "power_of_attorney"
        [⟨"John Doe", "Principal"⟩, ⟨"Jane Smith", "Agent"⟩, ⟨"Zork Quux", "Observer"⟩]
        "Dam Project" "english" = Except.ok c5Prompt
    ∧ ¬ strInfix "Zork Quux" c5Prompt ∧ ¬ strInfix "Observer" c5Prompt :=
  c5_power_of_attorney_uses_first_two_parties ⟨"John Doe", "Principal"⟩ ⟨"Jane Smith", "Agent"⟩
    ⟨"Zork Quux", "Observer"⟩ "Dam Project" "english" c5Prompt rfl (by decide) (by decide)

set_option maxRecDepth 16000 in
/-- C4 (amended): for every supported locale and document kind, the built
prompt contains the whitespace-trimmed locale-specific instruction template
text verbatim as a substring (the raw template string itself loses its
leading newline to the final strip; see the counterexample). -/
theorem c4_trimmed_instructions_verbatim (lang : String)
    (hlang : lang ∈ CompanyProfiles.SUPPORTED_LANGUAGES) :
    (∀ (p0 p1 : LegalDocs.Party) (rest : List LegalDocs.Party) (project_name : String), ∃ q,
      LegalDocs.build_prompt "power_of_attorney" (p0 :: p1 :: rest) project_name lang
        = Except.ok q
      ∧ strInfix (pyStripS (LegalDocs.get_language_legal_templates lang).power_of_attorney) q)
    ∧ (∀ (parties : List LegalDocs.Party) (project_name : String), ∃ q,
      LegalDocs.build_prompt "letter_of_association" parties project_name lang = Except.ok q
      ∧ strInfix (pyStripS (LegalDocs.get_language_legal_templates lang).letter_of_association) q)
    ∧ (∀ (firm : CompanyProfiles.Firm) (rel : String),
      strInfix (pyStripS (CompanyProfiles.get_language_profile_templates lang).instructions)
        (CompanyProfiles.build_prompt firm rel lang)) := by
  have hlang3 : lang = "english" ∨ lang = "portuguese" ∨ lang = "spanish" := by
    simpa [CompanyProfiles.SUPPORTED_LANGUAGES] using hlang
  rcases hlang3 with rfl | rfl | rfl
  · refine ⟨fun p0 p1 rest pn =>
        legal_poa_instr_infix p0 p1 rest pn "english" 'Y' '.' (by decide) rfl (by decide) rfl,
      fun parties pn =>
        legal_loa_instr_infix parties pn "english" 'Y' '.' (by decide) rfl (by decide) rfl,
      fun firm rel => ?_⟩
    have hres : CompanyProfiles.resolvedLang "english" = "english" := rfl
    simpa [hres] using
      profile_instr_infix firm rel "english" 'Y' '.' (by decide) rfl (by decide) rfl
  · refine ⟨fun p0 p1 rest pn =>
        legal_poa_instr_infix p0 p1 rest pn "portuguese" 'V' '.' (by decide) rfl (by decide) rfl,
      fun parties pn =>
        legal_loa_instr_infix parties pn "portuguese" 'V' '.' (by decide) rfl (by decide) rfl,
      fun firm rel => ?_⟩
    have hres : CompanyProfiles.resolvedLang "portuguese" = "portuguese" := rfl
    simpa [hres] using
      profile_instr_infix firm rel "portuguese" 'V' '.' (by decide) rfl (by decide) rfl
  · refine ⟨fun p0 p1 rest pn =>
        legal_poa_instr_infix p0 p1 rest pn "spanish" 'E' '.' (by decide) rfl (by decide) rfl,
      fun parties pn =>
        legal_loa_instr_infix parties pn "spanish" 'E' '.' (by decide) rfl (by decide) rfl,
      fun firm rel => ?_⟩
    have hres : CompanyProfiles.resolvedLang "spanish" = "spanish" := rfl
    simpa [hres] using
      profile_instr_infix firm rel "spanish" 'E' '.' (by decide) rfl (by decide) rfl

/-- C4 witness: the "english" company profile prompt for a concrete firm
contains the trimmed English instruction text. -/
theorem c4_trimmed_instructions_verbatim_witness :
    strInfix (pyStripS (CompanyProfiles.get_language_profile_templates "english").instructions)
      (CompanyProfiles.build_prompt ⟨"A", "d", [], []⟩ "rel" "english") :=
  (c4_trimmed_instructions_verbatim "english" (by decide)).2.2 ⟨"A", "d", [], []⟩ "rel"

set_option maxRecDepth 16000 in
/-- C4 counterexample: the raw instruction template for (power_of_attorney,
english), as stored (with its leading and trailing newline), is not a
substring of the built prompt, because the final strip removes the template's
leading newline at the start of the prompt. -/
theorem c4_counterexample :
    LegalDocs.build_prompt "power_of_attorney"
        [⟨"John Doe", "Principal"⟩, ⟨"Jane Smith", "Attorney-in-fact"⟩] "P" "english"
      = Except.ok c4SamplePrompt
    ∧ ¬ strInfix (LegalDocs.get_language_legal_templates "english").power_of_attorney
        c4SamplePrompt :=
  ⟨rfl, by decide⟩
